import Mathlib

/-!
Shallow embedding of the `xdgdir` crate (`src/lib.rs`): a pure resolver of
XDG base directories from an environment snapshot.

Modelling choices:
* `Ctx` embeds the `Context` trait: a read-only lookup from variable names
  to optional string values (the `HashMap` test adapter is literally such a
  mapping; the `Env` adapter is one snapshot of the process environment).
* A `PathBuf` is embedded as the `String` it stores: `PathBuf::from`
  wraps the string verbatim, `Path::is_absolute` on Unix holds iff the
  path begins with the separator `/`, and `PathBuf::push` is `pushPath`
  below (replace when the pushed path is absolute, otherwise append,
  inserting a separator when the buffer is non-empty and does not already
  end in one), mirroring `std::path`.
* `Result<T, Error>` becomes `Except Error T`; the `?` operator becomes
  explicit matching, preserving the evaluation order of `from_context`.
-/

namespace Xdgdir

/-- The `Context` trait: `fn get(&self, key: &str) -> Option<String>`. -/
abbrev Ctx := String → Option String

/-- `Path::is_absolute` on Unix: the path has a root, i.e. begins with `/`. -/
def isAbsolute (p : String) : Bool :=
  p.data.head? == some '/'

/-- The `need_sep` test inside `PathBuf::push`: the rightmost byte exists
and is not the separator. -/
def needSep (p : String) : Bool :=
  match p.data.getLast? with
  | none => false
  | some c => c != '/'

/-- `PathBuf::push` (and `Path::join`) on Unix: an absolute pushed path
replaces the buffer; otherwise it is appended, preceded by a separator when
one is needed. -/
def pushPath (p seg : String) : String :=
  if isAbsolute seg then seg
  else if needSep p then p ++ "/" ++ seg
  else p ++ seg

/-- `enum Error` from `src/lib.rs`. -/
inductive Error where
  | HomeNotSet : Error
  | NotAbsolutePath : String → String → Error
deriving DecidableEq, Repr

/-- The `Display` impl for `Error` (`src/lib.rs`, lines 73-88). -/
def renderError : Error → String
  | .HomeNotSet => "$HOME is not set or empty"
  | .NotAbsolutePath key path => key ++ "=\"" ++ path ++ "\" is not absolute path"

/-- `struct BaseDir` from `src/lib.rs`. -/
structure BaseDir where
  home : String
  config : String
  data : String
  state : String
  cache : String
  runtime : Option String
  bin : String
deriving DecidableEq, Repr

/-- `BaseDir::ensure_path` (`src/lib.rs`, lines 122-129). -/
def ensure_path (key : String) (path : String) : Except Error String :=
  if isAbsolute path then .ok path
  else .error (.NotAbsolutePath key path)

/-- `BaseDir::get_home` (`src/lib.rs`, lines 131-137). -/
def get_home (context : Ctx) : Except Error String :=
  match context "HOME" with
  | none => .error .HomeNotSet
  | some path => if path.isEmpty then .error .HomeNotSet else ensure_path "HOME" path

/-- `BaseDir::get_path` (`src/lib.rs`, lines 139-149). -/
def get_path (context : Ctx) (key : String) (default : String) : Except Error String :=
  match context key with
  | none => .ok default
  | some path => if path.isEmpty then .ok default else ensure_path key path

/-- The inline `XDG_RUNTIME_DIR` match of `BaseDir::from_context`
(`src/lib.rs`, lines 174-178). -/
def get_runtime (context : Ctx) : Except Error (Option String) :=
  match context "XDG_RUNTIME_DIR" with
  | none => .ok none
  | some path =>
    if path.isEmpty then .ok none
    else match ensure_path "XDG_RUNTIME_DIR" path with
      | .ok p => .ok (some p)
      | .error e => .error e

/-- `BaseDir::from_context` (`src/lib.rs`, lines 151-189), with each `?`
written as an explicit match so the evaluation order (`HOME`, then
`XDG_DATA_HOME`, then `XDG_CONFIG_HOME`, then `XDG_STATE_HOME`, then
`XDG_CACHE_HOME`, then `XDG_RUNTIME_DIR`) is visible. -/
def from_context (context : Ctx) : Except Error BaseDir :=
  match get_home context with
  | .error e => .error e
  | .ok home =>
    let bin := pushPath (pushPath home ".local") "bin"
    match get_path context "XDG_DATA_HOME" (pushPath (pushPath home ".local") "share") with
    | .error e => .error e
    | .ok data =>
      match get_path context "XDG_CONFIG_HOME" (pushPath home ".config") with
      | .error e => .error e
      | .ok config =>
        match get_path context "XDG_STATE_HOME" (pushPath (pushPath home ".local") "state") with
        | .error e => .error e
        | .ok state =>
          match get_path context "XDG_CACHE_HOME" (pushPath home ".cache") with
          | .error e => .error e
          | .ok cache =>
            match get_runtime context with
            | .error e => .error e
            | .ok runtime =>
              .ok { home, bin, data, config, state, cache, runtime }

/-- `BaseDir::new` (`src/lib.rs`, lines 206-218): resolve globally, then
push the application name onto `config`, `data`, `state`, `cache` and, when
present, `runtime`. The underlying `BaseDir::global()` is `from_context`
applied to the ambient environment snapshot, so the snapshot is passed
explicitly here. -/
def new (context : Ctx) (app_name : String) : Except Error BaseDir :=
  match from_context context with
  | .error e => .error e
  | .ok g =>
    .ok { g with
      config := pushPath g.config app_name
      data := pushPath g.data app_name
      state := pushPath g.state app_name
      cache := pushPath g.cache app_name
      runtime := g.runtime.map (fun r => pushPath r app_name) }

/-! ### Characterization of the resolver

`checkHome`, `checkVar` and `firstError` record the validation that each
lookup site of `from_context` performs, in the order the code performs it;
`homeVal`, `fieldValue`, `runtimeVal` and `resolved` record the value each
field receives when every check passes. The lemma `from_context_eq` ties
`from_context` to these. -/

/-- The validation `get_home` performs on `HOME`: `none` means the check
passes. -/
def checkHome (context : Ctx) : Option Error :=
  match context "HOME" with
  | none => some .HomeNotSet
  | some path =>
    if path.isEmpty then some .HomeNotSet
    else if isAbsolute path then none
    else some (.NotAbsolutePath "HOME" path)

/-- The validation `get_path` (and the runtime match) performs on an
optional variable: `none` means the check passes (absent, empty, or
absolute). -/
def checkVar (context : Ctx) (key : String) : Option Error :=
  match context key with
  | none => none
  | some path =>
    if path.isEmpty then none
    else if isAbsolute path then none
    else some (.NotAbsolutePath key path)

/-- The first failing check of `from_context`, in the order the code runs
them: `HOME`, `XDG_DATA_HOME`, `XDG_CONFIG_HOME`, `XDG_STATE_HOME`,
`XDG_CACHE_HOME`, `XDG_RUNTIME_DIR`. -/
def firstError (context : Ctx) : Option Error :=
  match checkHome context with
  | some e => some e
  | none =>
    match checkVar context "XDG_DATA_HOME" with
    | some e => some e
    | none =>
      match checkVar context "XDG_CONFIG_HOME" with
      | some e => some e
      | none =>
        match checkVar context "XDG_STATE_HOME" with
        | some e => some e
        | none =>
          match checkVar context "XDG_CACHE_HOME" with
          | some e => some e
          | none => checkVar context "XDG_RUNTIME_DIR"

/-- The `home` value when the `HOME` check passes. -/
def homeVal (context : Ctx) : String :=
  match context "HOME" with
  | none => ""
  | some path => path

/-- The value an override-capable field receives when its check passes:
the variable when present and non-empty, the default otherwise. -/
def fieldValue (context : Ctx) (key : String) (default : String) : String :=
  match context key with
  | none => default
  | some path => if path.isEmpty then default else path

/-- The `runtime` value when the `XDG_RUNTIME_DIR` check passes. -/
def runtimeVal (context : Ctx) : Option String :=
  match context "XDG_RUNTIME_DIR" with
  | none => none
  | some path => if path.isEmpty then none else some path

/-- The `BaseDir` that `from_context` builds when every check passes. -/
def resolved (context : Ctx) : BaseDir where
  home := homeVal context
  bin := pushPath (pushPath (homeVal context) ".local") "bin"
  data := fieldValue context "XDG_DATA_HOME"
    (pushPath (pushPath (homeVal context) ".local") "share")
  config := fieldValue context "XDG_CONFIG_HOME" (pushPath (homeVal context) ".config")
  state := fieldValue context "XDG_STATE_HOME"
    (pushPath (pushPath (homeVal context) ".local") "state")
  cache := fieldValue context "XDG_CACHE_HOME" (pushPath (homeVal context) ".cache")
  runtime := runtimeVal context

theorem get_home_eq (context : Ctx) :
    get_home context =
      match checkHome context with
      | some e => .error e
      | none => .ok (homeVal context) := by
  unfold get_home checkHome homeVal ensure_path
  cases h : context "HOME" with
  | none => rfl
  | some path =>
    by_cases hemp : path.isEmpty
    · simp [hemp]
    · by_cases habs : isAbsolute path
      · simp [hemp, habs]
      · simp [hemp, habs]

theorem get_path_eq (context : Ctx) (key default : String) :
    get_path context key default =
      match checkVar context key with
      | some e => .error e
      | none => .ok (fieldValue context key default) := by
  unfold get_path checkVar fieldValue ensure_path
  cases h : context key with
  | none => rfl
  | some path =>
    by_cases hemp : path.isEmpty
    · simp [hemp]
    · by_cases habs : isAbsolute path
      · simp [hemp, habs]
      · simp [hemp, habs]

theorem get_runtime_eq (context : Ctx) :
    get_runtime context =
      match checkVar context "XDG_RUNTIME_DIR" with
      | some e => .error e
      | none => .ok (runtimeVal context) := by
  unfold get_runtime checkVar runtimeVal ensure_path
  cases h : context "XDG_RUNTIME_DIR" with
  | none => rfl
  | some path =>
    by_cases hemp : path.isEmpty
    · simp [hemp]
    · by_cases habs : isAbsolute path
      · simp [hemp, habs]
      · simp [hemp, habs]

/-- `from_context` returns the first failing check's error, and otherwise
the fully resolved `BaseDir`. -/
theorem from_context_eq (context : Ctx) :
    from_context context =
      match firstError context with
      | some e => .error e
      | none => .ok (resolved context) := by
  unfold from_context firstError resolved
  simp only [get_home_eq, get_path_eq, get_runtime_eq]
  cases checkHome context with
  | some e => rfl
  | none =>
    cases checkVar context "XDG_DATA_HOME" with
    | some e => rfl
    | none =>
      cases checkVar context "XDG_CONFIG_HOME" with
      | some e => rfl
      | none =>
        cases checkVar context "XDG_STATE_HOME" with
        | some e => rfl
        | none =>
          cases checkVar context "XDG_CACHE_HOME" with
          | some e => rfl
          | none =>
            cases checkVar context "XDG_RUNTIME_DIR" with
            | some e => rfl
            | none => rfl

theorem from_context_error_iff (context : Ctx) (e : Error) :
    from_context context = .error e ↔ firstError context = some e := by
  rw [from_context_eq]
  cases h : firstError context <;> simp

theorem from_context_ok_iff (context : Ctx) (b : BaseDir) :
    from_context context = .ok b ↔ firstError context = none ∧ b = resolved context := by
  rw [from_context_eq]
  cases h : firstError context <;> simp [eq_comm]

/-! ### Helper lemmas -/

theorem isEmpty_eq_false_of_ne {v : String} (h : v ≠ "") : v.isEmpty = false := by
  rw [Bool.eq_false_iff]
  intro hc
  exact h ((String.isEmpty_iff v).mp hc)

theorem isAbsolute_append (p q : String) (h : isAbsolute p = true) :
    isAbsolute (p ++ q) = true := by
  unfold isAbsolute at h ⊢
  rw [String.data_append]
  cases hd : p.data with
  | nil => rw [hd] at h; simp at h
  | cons c t =>
    rw [hd] at h
    simp at h
    simp [h]

theorem isAbsolute_pushPath (p seg : String) (h : isAbsolute p = true) :
    isAbsolute (pushPath p seg) = true := by
  unfold pushPath
  split
  · assumption
  · split
    · exact isAbsolute_append (p ++ "/") seg (isAbsolute_append p "/" h)
    · exact isAbsolute_append p seg h

theorem checkHome_none_inv (context : Ctx) (h : checkHome context = none) :
    context "HOME" = some (homeVal context) ∧ (homeVal context).isEmpty = false ∧
      isAbsolute (homeVal context) = true := by
  unfold checkHome at h
  unfold homeVal
  cases hh : context "HOME" with
  | none => rw [hh] at h; simp at h
  | some path =>
    rw [hh] at h
    by_cases hemp : path.isEmpty <;> by_cases habs : isAbsolute path <;>
      simp [hemp, habs] at h ⊢

theorem checkHome_none_of (context : Ctx) (v : String) (hv : context "HOME" = some v)
    (hne : v ≠ "") (habs : isAbsolute v = true) : checkHome context = none := by
  unfold checkHome
  rw [hv]
  simp [isEmpty_eq_false_of_ne hne, habs]

theorem checkHome_homeNotSet (context : Ctx)
    (h : context "HOME" = none ∨ context "HOME" = some "") :
    checkHome context = some .HomeNotSet := by
  unfold checkHome
  cases h with
  | inl h => rw [h]
  | inr h => rw [h]; simp [show ("" : String).isEmpty = true from rfl]

theorem checkHome_some_of (context : Ctx) (v : String) (hv : context "HOME" = some v)
    (hne : v ≠ "") (habs : isAbsolute v = false) :
    checkHome context = some (.NotAbsolutePath "HOME" v) := by
  unfold checkHome
  rw [hv]
  simp [isEmpty_eq_false_of_ne hne, habs]

theorem checkVar_some_of (context : Ctx) (key v : String) (hv : context key = some v)
    (hne : v ≠ "") (habs : isAbsolute v = false) :
    checkVar context key = some (.NotAbsolutePath key v) := by
  unfold checkVar
  rw [hv]
  simp [isEmpty_eq_false_of_ne hne, habs]

theorem homeVal_of_some (context : Ctx) (v : String) (hv : context "HOME" = some v) :
    homeVal context = v := by
  unfold homeVal
  rw [hv]

theorem fieldValue_of_some (context : Ctx) (key default v : String)
    (hv : context key = some v) (hne : v ≠ "") :
    fieldValue context key default = v := by
  unfold fieldValue
  rw [hv]
  simp [isEmpty_eq_false_of_ne hne]

theorem fieldValue_of_default (context : Ctx) (key default : String)
    (h : context key = none ∨ context key = some "") :
    fieldValue context key default = default := by
  unfold fieldValue
  cases h with
  | inl h => rw [h]
  | inr h => rw [h]; simp [show ("" : String).isEmpty = true from rfl]

theorem checkVar_none_fieldValue_abs (context : Ctx) (key default : String)
    (h : checkVar context key = none) (hd : isAbsolute default = true) :
    isAbsolute (fieldValue context key default) = true := by
  unfold checkVar at h
  unfold fieldValue
  cases hk : context key with
  | none => exact hd
  | some path =>
    rw [hk] at h
    by_cases hemp : path.isEmpty
    · simpa [hemp] using hd
    · by_cases habs : isAbsolute path
      · simp [hemp, habs]
      · simp [hemp, habs] at h

theorem runtimeVal_of_empty (context : Ctx)
    (h : context "XDG_RUNTIME_DIR" = none ∨ context "XDG_RUNTIME_DIR" = some "") :
    runtimeVal context = none := by
  unfold runtimeVal
  cases h with
  | inl h => rw [h]
  | inr h => rw [h]; simp [show ("" : String).isEmpty = true from rfl]

theorem runtimeVal_of_some (context : Ctx) (v : String)
    (hv : context "XDG_RUNTIME_DIR" = some v) (hne : v ≠ "") :
    runtimeVal context = some v := by
  unfold runtimeVal
  rw [hv]
  simp [isEmpty_eq_false_of_ne hne]

theorem checkVar_none_runtimeVal_abs (context : Ctx)
    (h : checkVar context "XDG_RUNTIME_DIR" = none) (r : String)
    (hr : runtimeVal context = some r) : isAbsolute r = true := by
  unfold checkVar at h
  unfold runtimeVal at hr
  cases hk : context "XDG_RUNTIME_DIR" with
  | none => rw [hk] at hr; simp at hr
  | some path =>
    rw [hk] at h hr
    by_cases hemp : path.isEmpty
    · simp [hemp] at hr
    · by_cases habs : isAbsolute path
      · simp [hemp] at hr
        rw [← hr]
        exact habs
      · simp [hemp, habs] at h

theorem checkVar_none_of_empty (context : Ctx) (key : String)
    (h : context key = none ∨ context key = some "") : checkVar context key = none := by
  unfold checkVar
  cases h with
  | inl h => rw [h]
  | inr h => rw [h]; simp [show ("" : String).isEmpty = true from rfl]

theorem checkVar_none_of_abs (context : Ctx) (key v : String) (hv : context key = some v)
    (habs : isAbsolute v = true) : checkVar context key = none := by
  unfold checkVar
  rw [hv]
  by_cases hemp : v.isEmpty <;> simp [hemp, habs]

theorem firstError_none_of (context : Ctx)
    (h1 : checkHome context = none)
    (h2 : checkVar context "XDG_DATA_HOME" = none)
    (h3 : checkVar context "XDG_CONFIG_HOME" = none)
    (h4 : checkVar context "XDG_STATE_HOME" = none)
    (h5 : checkVar context "XDG_CACHE_HOME" = none)
    (h6 : checkVar context "XDG_RUNTIME_DIR" = none) :
    firstError context = none := by
  unfold firstError
  rw [h1, h2, h3, h4, h5, h6]

theorem firstError_none_inv (context : Ctx) (h : firstError context = none) :
    checkHome context = none ∧ checkVar context "XDG_DATA_HOME" = none ∧
    checkVar context "XDG_CONFIG_HOME" = none ∧ checkVar context "XDG_STATE_HOME" = none ∧
    checkVar context "XDG_CACHE_HOME" = none ∧ checkVar context "XDG_RUNTIME_DIR" = none := by
  unfold firstError at h
  cases h1 : checkHome context with
  | some e => rw [h1] at h; simp at h
  | none =>
  rw [h1] at h
  cases h2 : checkVar context "XDG_DATA_HOME" with
  | some e => rw [h2] at h; simp at h
  | none =>
  rw [h2] at h
  cases h3 : checkVar context "XDG_CONFIG_HOME" with
  | some e => rw [h3] at h; simp at h
  | none =>
  rw [h3] at h
  cases h4 : checkVar context "XDG_STATE_HOME" with
  | some e => rw [h4] at h; simp at h
  | none =>
  rw [h4] at h
  cases h5 : checkVar context "XDG_CACHE_HOME" with
  | some e => rw [h5] at h; simp at h
  | none =>
  rw [h5] at h
  exact ⟨rfl, rfl, rfl, rfl, rfl, h⟩

/-! ### Concrete environments

`ctxOf` mirrors the `HashMap`-backed `Context` adapter of the test module:
an in-memory association of variable names to values. -/

/-- An in-memory environment, as the test module's `HashMap` adapter. -/
def ctxOf (l : List (String × String)) : Ctx :=
  fun key => List.lookup key l

/-- Environment with a valid `HOME` but a relative `XDG_DATA_HOME`. -/
def envC1 : Ctx := ctxOf [("HOME", "/home/user"), ("XDG_DATA_HOME", "some/dir")]

/-- Environment with a valid `HOME` and an absolute `XDG_DATA_HOME`. -/
def envC1w : Ctx := ctxOf [("HOME", "/home/user"), ("XDG_DATA_HOME", "/some/dir")]

/-- Environment where both `XDG_CONFIG_HOME` and `XDG_DATA_HOME` are
relative and non-empty. -/
def envC2 : Ctx :=
  ctxOf [("HOME", "/home/user"), ("XDG_CONFIG_HOME", "rel/cfg"), ("XDG_DATA_HOME", "rel/data")]

/-- A second environment where both `XDG_CONFIG_HOME` and `XDG_DATA_HOME`
are relative and non-empty. -/
def envC2w : Ctx :=
  ctxOf [("HOME", "/home/user"), ("XDG_CONFIG_HOME", "cfg/dir"), ("XDG_DATA_HOME", "data/dir")]

/-- The empty environment. -/
def envEmpty : Ctx := ctxOf []

/-! ### The claims -/

/-- Claim C1 (amended): when `HOME` is present, non-empty and absolute AND
each of the four override variables and `XDG_RUNTIME_DIR` passes its check
(absent, empty, or absolute), resolution succeeds; each override-capable
field equals the variable value when present and non-empty, and the default
under `home` when absent or empty; `bin` is always `home/.local/bin`. The
extra validity hypotheses are forced: the original claim asserts success
for every environment with a valid `HOME`, which fails when e.g.
`XDG_DATA_HOME` is relative (see the counterexample). -/
theorem c1_field_resolution (context : Ctx) (h : String)
    (hh : context "HOME" = some h) (hne : h ≠ "") (habs : isAbsolute h = true)
    (hd : checkVar context "XDG_DATA_HOME" = none)
    (hc : checkVar context "XDG_CONFIG_HOME" = none)
    (hs : checkVar context "XDG_STATE_HOME" = none)
    (hca : checkVar context "XDG_CACHE_HOME" = none)
    (hr : checkVar context "XDG_RUNTIME_DIR" = none) :
    ∃ b, from_context context = .ok b ∧ b.home = h ∧
      (∀ v, context "XDG_CONFIG_HOME" = some v → v ≠ "" → b.config = v) ∧
      ((context "XDG_CONFIG_HOME" = none ∨ context "XDG_CONFIG_HOME" = some "") →
        b.config = pushPath h ".config") ∧
      (∀ v, context "XDG_DATA_HOME" = some v → v ≠ "" → b.data = v) ∧
      ((context "XDG_DATA_HOME" = none ∨ context "XDG_DATA_HOME" = some "") →
        b.data = pushPath (pushPath h ".local") "share") ∧
      (∀ v, context "XDG_STATE_HOME" = some v → v ≠ "" → b.state = v) ∧
      ((context "XDG_STATE_HOME" = none ∨ context "XDG_STATE_HOME" = some "") →
        b.state = pushPath (pushPath h ".local") "state") ∧
      (∀ v, context "XDG_CACHE_HOME" = some v → v ≠ "" → b.cache = v) ∧
      ((context "XDG_CACHE_HOME" = none ∨ context "XDG_CACHE_HOME" = some "") →
        b.cache = pushPath h ".cache") ∧
      b.bin = pushPath (pushPath h ".local") "bin" := by
  have hch : checkHome context = none := checkHome_none_of context h hh hne habs
  have hfe : firstError context = none := firstError_none_of context hch hd hc hs hca hr
  have hhv : homeVal context = h := homeVal_of_some context h hh
  refine ⟨resolved context, ?_, ?_, ?_, ?_, ?_, ?_, ?_, ?_, ?_, ?_, ?_⟩
  · rw [from_context_eq, hfe]
  · exact hhv
  · intro v hv hvne
    exact fieldValue_of_some context "XDG_CONFIG_HOME" _ v hv hvne
  · intro hdef
    show fieldValue context "XDG_CONFIG_HOME" (pushPath (homeVal context) ".config") =
      pushPath h ".config"
    rw [fieldValue_of_default context "XDG_CONFIG_HOME" _ hdef, hhv]
  · intro v hv hvne
    exact fieldValue_of_some context "XDG_DATA_HOME" _ v hv hvne
  · intro hdef
    show fieldValue context "XDG_DATA_HOME"
        (pushPath (pushPath (homeVal context) ".local") "share") =
      pushPath (pushPath h ".local") "share"
    rw [fieldValue_of_default context "XDG_DATA_HOME" _ hdef, hhv]
  · intro v hv hvne
    exact fieldValue_of_some context "XDG_STATE_HOME" _ v hv hvne
  · intro hdef
    show fieldValue context "XDG_STATE_HOME"
        (pushPath (pushPath (homeVal context) ".local") "state") =
      pushPath (pushPath h ".local") "state"
    rw [fieldValue_of_default context "XDG_STATE_HOME" _ hdef, hhv]
  · intro v hv hvne
    exact fieldValue_of_some context "XDG_CACHE_HOME" _ v hv hvne
  · intro hdef
    show fieldValue context "XDG_CACHE_HOME" (pushPath (homeVal context) ".cache") =
      pushPath h ".cache"
    rw [fieldValue_of_default context "XDG_CACHE_HOME" _ hdef, hhv]
  · show pushPath (pushPath (homeVal context) ".local") "bin" =
      pushPath (pushPath h ".local") "bin"
    rw [hhv]

/-- Claim C1, counterexample: in `envC1`, `HOME` is set to the non-empty
absolute path `/home/user`, yet resolution does not succeed — it fails,
because `XDG_DATA_HOME` is relative. -/
theorem c1_success_counterexample :
    envC1 "HOME" = some "/home/user" ∧ isAbsolute "/home/user" = true ∧
      from_context envC1 = .error (.NotAbsolutePath "XDG_DATA_HOME" "some/dir") :=
  ⟨rfl, rfl, rfl⟩

/-- Claim C1, witness: the amended theorem applied to `envC1w`. -/
theorem c1_field_resolution_witness :
    ∃ b, from_context envC1w = .ok b ∧ b.home = "/home/user" ∧
      (∀ v, envC1w "XDG_CONFIG_HOME" = some v → v ≠ "" → b.config = v) ∧
      ((envC1w "XDG_CONFIG_HOME" = none ∨ envC1w "XDG_CONFIG_HOME" = some "") →
        b.config = pushPath "/home/user" ".config") ∧
      (∀ v, envC1w "XDG_DATA_HOME" = some v → v ≠ "" → b.data = v) ∧
      ((envC1w "XDG_DATA_HOME" = none ∨ envC1w "XDG_DATA_HOME" = some "") →
        b.data = pushPath (pushPath "/home/user" ".local") "share") ∧
      (∀ v, envC1w "XDG_STATE_HOME" = some v → v ≠ "" → b.state = v) ∧
      ((envC1w "XDG_STATE_HOME" = none ∨ envC1w "XDG_STATE_HOME" = some "") →
        b.state = pushPath (pushPath "/home/user" ".local") "state") ∧
      (∀ v, envC1w "XDG_CACHE_HOME" = some v → v ≠ "" → b.cache = v) ∧
      ((envC1w "XDG_CACHE_HOME" = none ∨ envC1w "XDG_CACHE_HOME" = some "") →
        b.cache = pushPath "/home/user" ".cache") ∧
      b.bin = pushPath (pushPath "/home/user" ".local") "bin" :=
  c1_field_resolution envC1w "/home/user" rfl (by decide) rfl rfl rfl rfl rfl rfl

/-- Claim C2 (amended): `from_context` returns the error of the first
failing check, in the order the code actually runs them: `HOME`, then
`XDG_DATA_HOME`, then `XDG_CONFIG_HOME`, then `XDG_STATE_HOME`, then
`XDG_CACHE_HOME`, then `XDG_RUNTIME_DIR` (see `firstError`); in particular,
when `HOME` passes and both `XDG_CONFIG_HOME` and `XDG_DATA_HOME` hold
relative non-empty values, the returned error names `XDG_DATA_HOME`, not
`XDG_CONFIG_HOME` as the claim states. -/
theorem c2_check_order (context : Ctx) :
    (∀ e, from_context context = .error e ↔ firstError context = some e) ∧
    (∀ v w, checkHome context = none →
      context "XDG_CONFIG_HOME" = some v → v ≠ "" → isAbsolute v = false →
      context "XDG_DATA_HOME" = some w → w ≠ "" → isAbsolute w = false →
      from_context context = .error (.NotAbsolutePath "XDG_DATA_HOME" w)) := by
  refine ⟨fun e => from_context_error_iff context e, ?_⟩
  intro v w hch hcv hcne hcabs hdv hdne hdabs
  have hcd := checkVar_some_of context "XDG_DATA_HOME" w hdv hdne hdabs
  apply (from_context_error_iff context _).mpr
  unfold firstError
  rw [hch, hcd]

/-- Claim C2, counterexample: in `envC2` both `XDG_CONFIG_HOME` and
`XDG_DATA_HOME` are relative and non-empty, yet the error names
`XDG_DATA_HOME`, not `XDG_CONFIG_HOME` — the code checks `XDG_DATA_HOME`
first. -/
theorem c2_order_counterexample :
    envC2 "XDG_CONFIG_HOME" = some "rel/cfg" ∧ envC2 "XDG_DATA_HOME" = some "rel/data" ∧
      from_context envC2 = .error (.NotAbsolutePath "XDG_DATA_HOME" "rel/data") ∧
      from_context envC2 ≠ .error (.NotAbsolutePath "XDG_CONFIG_HOME" "rel/cfg") := by
  refine ⟨rfl, rfl, rfl, ?_⟩
  rw [show from_context envC2 = .error (.NotAbsolutePath "XDG_DATA_HOME" "rel/data") from rfl]
  intro hcon
  injection hcon with h
  exact absurd h (by decide)

/-- Claim C2, witness: the amended theorem applied to `envC2w`. -/
theorem c2_check_order_witness :
    from_context envC2w = .error (.NotAbsolutePath "XDG_DATA_HOME" "data/dir") :=
  (c2_check_order envC2w).2 "cfg/dir" "data/dir" rfl rfl (by decide) rfl rfl (by decide) rfl

/-- Claim C3: when `HOME` is unset or the empty string, both the global
resolver and the per-application deriver fail with exactly
`Error.HomeNotSet`, regardless of every other variable. -/
theorem c3_home_not_set (context : Ctx) (app_name : String)
    (h : context "HOME" = none ∨ context "HOME" = some "") :
    from_context context = .error .HomeNotSet ∧ new context app_name = .error .HomeNotSet := by
  have hch := checkHome_homeNotSet context h
  have hfe : firstError context = some .HomeNotSet := by
    unfold firstError
    rw [hch]
  have hfc : from_context context = .error .HomeNotSet :=
    (from_context_error_iff context _).mpr hfe
  refine ⟨hfc, ?_⟩
  unfold new
  rw [hfc]

/-- Claim C3, witness: the empty environment. -/
theorem c3_home_not_set_witness :
    from_context envEmpty = .error .HomeNotSet ∧ new envEmpty "my-app" = .error .HomeNotSet :=
  c3_home_not_set envEmpty "my-app" (Or.inl rfl)

/-- Environment where both `XDG_DATA_HOME` and `XDG_CACHE_HOME` are
relative and non-empty. -/
def envC4 : Ctx :=
  ctxOf [("HOME", "/home/user"), ("XDG_DATA_HOME", "rel/data"), ("XDG_CACHE_HOME", "rel/cache")]

/-- Environment with a whitespace-only `XDG_CONFIG_HOME`. -/
def envC4w : Ctx := ctxOf [("HOME", "/home/user"), ("XDG_CONFIG_HOME", " ")]

/-- Environment with a valid `HOME` and an empty `XDG_RUNTIME_DIR`. -/
def envC5 : Ctx := ctxOf [("HOME", "/home/user"), ("XDG_RUNTIME_DIR", "")]

/-- Environment with only a valid `HOME`. -/
def envC6 : Ctx := ctxOf [("HOME", "/home/user")]

/-- Claim C4 (amended): a present, non-empty, relative value makes
resolution fail with `NotAbsolutePath(variableName, thatPath)`, provided
every variable the code checks earlier (in its order `HOME`,
`XDG_DATA_HOME`, `XDG_CONFIG_HOME`, `XDG_STATE_HOME`, `XDG_CACHE_HOME`)
passes its own check; without that proviso the reported variable is the
first invalid one, not the stated one (see the counterexample). A
whitespace-only value is non-empty and relative, hence covered (see the
witness). -/
theorem c4_not_absolute (context : Ctx) :
    (∀ v, context "HOME" = some v → v ≠ "" → isAbsolute v = false →
      from_context context = .error (.NotAbsolutePath "HOME" v)) ∧
    (∀ v, checkHome context = none →
      context "XDG_DATA_HOME" = some v → v ≠ "" → isAbsolute v = false →
      from_context context = .error (.NotAbsolutePath "XDG_DATA_HOME" v)) ∧
    (∀ v, checkHome context = none → checkVar context "XDG_DATA_HOME" = none →
      context "XDG_CONFIG_HOME" = some v → v ≠ "" → isAbsolute v = false →
      from_context context = .error (.NotAbsolutePath "XDG_CONFIG_HOME" v)) ∧
    (∀ v, checkHome context = none → checkVar context "XDG_DATA_HOME" = none →
      checkVar context "XDG_CONFIG_HOME" = none →
      context "XDG_STATE_HOME" = some v → v ≠ "" → isAbsolute v = false →
      from_context context = .error (.NotAbsolutePath "XDG_STATE_HOME" v)) ∧
    (∀ v, checkHome context = none → checkVar context "XDG_DATA_HOME" = none →
      checkVar context "XDG_CONFIG_HOME" = none → checkVar context "XDG_STATE_HOME" = none →
      context "XDG_CACHE_HOME" = some v → v ≠ "" → isAbsolute v = false →
      from_context context = .error (.NotAbsolutePath "XDG_CACHE_HOME" v)) ∧
    (∀ v, checkHome context = none → checkVar context "XDG_DATA_HOME" = none →
      checkVar context "XDG_CONFIG_HOME" = none → checkVar context "XDG_STATE_HOME" = none →
      checkVar context "XDG_CACHE_HOME" = none →
      context "XDG_RUNTIME_DIR" = some v → v ≠ "" → isAbsolute v = false →
      from_context context = .error (.NotAbsolutePath "XDG_RUNTIME_DIR" v)) := by
  refine ⟨?_, ?_, ?_, ?_, ?_, ?_⟩
  · intro v hv hne habs
    apply (from_context_error_iff context _).mpr
    unfold firstError
    rw [checkHome_some_of context v hv hne habs]
  · intro v h1 hv hne habs
    apply (from_context_error_iff context _).mpr
    unfold firstError
    rw [h1, checkVar_some_of context "XDG_DATA_HOME" v hv hne habs]
  · intro v h1 h2 hv hne habs
    apply (from_context_error_iff context _).mpr
    unfold firstError
    rw [h1, h2, checkVar_some_of context "XDG_CONFIG_HOME" v hv hne habs]
  · intro v h1 h2 h3 hv hne habs
    apply (from_context_error_iff context _).mpr
    unfold firstError
    rw [h1, h2, h3, checkVar_some_of context "XDG_STATE_HOME" v hv hne habs]
  · intro v h1 h2 h3 h4 hv hne habs
    apply (from_context_error_iff context _).mpr
    unfold firstError
    rw [h1, h2, h3, h4, checkVar_some_of context "XDG_CACHE_HOME" v hv hne habs]
  · intro v h1 h2 h3 h4 h5 hv hne habs
    apply (from_context_error_iff context _).mpr
    unfold firstError
    rw [h1, h2, h3, h4, h5, checkVar_some_of context "XDG_RUNTIME_DIR" v hv hne habs]

/-- Claim C4, counterexample: in `envC4`, `XDG_CACHE_HOME` is present,
non-empty and relative, yet the resulting error names `XDG_DATA_HOME`
(also invalid and checked earlier), not `XDG_CACHE_HOME` as the claim
requires. -/
theorem c4_relative_counterexample :
    envC4 "XDG_CACHE_HOME" = some "rel/cache" ∧ isAbsolute "rel/cache" = false ∧
      from_context envC4 = .error (.NotAbsolutePath "XDG_DATA_HOME" "rel/data") ∧
      from_context envC4 ≠ .error (.NotAbsolutePath "XDG_CACHE_HOME" "rel/cache") := by
  refine ⟨rfl, rfl, rfl, ?_⟩
  rw [show from_context envC4 = .error (.NotAbsolutePath "XDG_DATA_HOME" "rel/data") from rfl]
  intro hcon
  injection hcon with h
  exact absurd h (by decide)

/-- Claim C4, witness: the whitespace-only value `" "` in
`XDG_CONFIG_HOME` is not treated as empty: it is validated for
absoluteness and fails. -/
theorem c4_not_absolute_witness :
    (" " : String) ≠ "" ∧
      from_context envC4w = .error (.NotAbsolutePath "XDG_CONFIG_HOME" " ") :=
  ⟨by decide, (c4_not_absolute envC4w).2.2.1 " " rfl rfl rfl (by decide) rfl⟩

/-- Claim C5: with `HOME` valid and every other checked variable valid, an
absent or empty `XDG_RUNTIME_DIR` yields success with `runtime = none`
(not an error), and a present, non-empty, absolute one yields success with
`runtime = some` of that very path; no default is substituted. -/
theorem c5_runtime (context : Ctx)
    (h1 : checkHome context = none)
    (h2 : checkVar context "XDG_DATA_HOME" = none)
    (h3 : checkVar context "XDG_CONFIG_HOME" = none)
    (h4 : checkVar context "XDG_STATE_HOME" = none)
    (h5 : checkVar context "XDG_CACHE_HOME" = none) :
    (((context "XDG_RUNTIME_DIR" = none ∨ context "XDG_RUNTIME_DIR" = some "") →
      ∃ b, from_context context = .ok b ∧ b.runtime = none) ∧
     (∀ v, context "XDG_RUNTIME_DIR" = some v → v ≠ "" → isAbsolute v = true →
      ∃ b, from_context context = .ok b ∧ b.runtime = some v)) := by
  constructor
  · intro hd
    have h6 : checkVar context "XDG_RUNTIME_DIR" = none :=
      checkVar_none_of_empty context "XDG_RUNTIME_DIR" hd
    refine ⟨resolved context, ?_, ?_⟩
    · rw [from_context_eq, firstError_none_of context h1 h2 h3 h4 h5 h6]
    · exact runtimeVal_of_empty context hd
  · intro v hv hne habs
    have h6 : checkVar context "XDG_RUNTIME_DIR" = none :=
      checkVar_none_of_abs context "XDG_RUNTIME_DIR" v hv habs
    refine ⟨resolved context, ?_, ?_⟩
    · rw [from_context_eq, firstError_none_of context h1 h2 h3 h4 h5 h6]
    · exact runtimeVal_of_some context v hv hne

/-- Claim C5, witness: `HOME=/home/user` and `XDG_RUNTIME_DIR` empty
resolve with `runtime = none`, not an error. -/
theorem c5_runtime_witness :
    ∃ b, from_context envC5 = .ok b ∧ b.runtime = none :=
  (c5_runtime envC5 rfl rfl rfl rfl rfl).1 (Or.inr rfl)

/-- Claim C6: when the global resolver succeeds with `g`, the
per-application deriver succeeds with `g`'s `config`, `data`, `state`,
`cache` extended by the application name (via `PathBuf::push`), `runtime`
extended when present and `none` when absent, and `home` and `bin`
unchanged; when the global resolver fails, the deriver fails with the same
error. -/
theorem c6_per_app (context : Ctx) (app_name : String) :
    (∀ e, from_context context = .error e → new context app_name = .error e) ∧
    (∀ g, from_context context = .ok g →
      new context app_name = .ok {
        home := g.home
        bin := g.bin
        config := pushPath g.config app_name
        data := pushPath g.data app_name
        state := pushPath g.state app_name
        cache := pushPath g.cache app_name
        runtime := g.runtime.map (fun r => pushPath r app_name) }) := by
  constructor
  · intro e he
    unfold new
    rw [he]
  · intro g hg
    unfold new
    rw [hg]

/-- Claim C6, witness: the defaults under `HOME=/home/user` with
application name `my-app`, matching the spec's example; `home` and `bin`
are unchanged. -/
theorem c6_per_app_witness :
    new envC6 "my-app" = .ok {
      home := "/home/user"
      config := "/home/user/.config/my-app"
      data := "/home/user/.local/share/my-app"
      state := "/home/user/.local/state/my-app"
      cache := "/home/user/.cache/my-app"
      runtime := none
      bin := "/home/user/.local/bin" } :=
  (c6_per_app envC6 "my-app").2 (resolved envC6) rfl

/-- Environment with an un-normalized absolute `XDG_DATA_HOME`. -/
def envC10 : Ctx := ctxOf [("HOME", "/home/user"), ("XDG_DATA_HOME", "/a/../b/")]

/-- Every field of a successful global resolution is absolute, `runtime`
is absent or absolute, and `bin` is `home/.local/bin`. -/
theorem ok_invariants (context : Ctx) (b : BaseDir) (h : from_context context = .ok b) :
    isAbsolute b.home = true ∧ isAbsolute b.config = true ∧ isAbsolute b.data = true ∧
    isAbsolute b.state = true ∧ isAbsolute b.cache = true ∧ isAbsolute b.bin = true ∧
    (∀ r, b.runtime = some r → isAbsolute r = true) ∧
    b.bin = pushPath (pushPath b.home ".local") "bin" := by
  obtain ⟨hfe, hb⟩ := (from_context_ok_iff context b).mp h
  obtain ⟨h1, h2, h3, h4, h5, h6⟩ := firstError_none_inv context hfe
  obtain ⟨hh, hhe, hha⟩ := checkHome_none_inv context h1
  subst hb
  refine ⟨hha, ?_, ?_, ?_, ?_, ?_, ?_, rfl⟩
  · exact checkVar_none_fieldValue_abs context "XDG_CONFIG_HOME" _ h3
      (isAbsolute_pushPath _ _ hha)
  · exact checkVar_none_fieldValue_abs context "XDG_DATA_HOME" _ h2
      (isAbsolute_pushPath _ _ (isAbsolute_pushPath _ _ hha))
  · exact checkVar_none_fieldValue_abs context "XDG_STATE_HOME" _ h4
      (isAbsolute_pushPath _ _ (isAbsolute_pushPath _ _ hha))
  · exact checkVar_none_fieldValue_abs context "XDG_CACHE_HOME" _ h5
      (isAbsolute_pushPath _ _ hha)
  · exact isAbsolute_pushPath _ _ (isAbsolute_pushPath _ _ hha)
  · intro r hr
    exact checkVar_none_runtimeVal_abs context h6 r hr

/-- Claim C7: whenever resolution (global or per-application) succeeds,
every populated path field of the result is absolute, `runtime` is absent
or absolute, and `bin` is always derived as `home/.local/bin` — it is
never read from any environment variable. -/
theorem c7_invariants (context : Ctx) (app_name : String) (b : BaseDir)
    (h : from_context context = .ok b ∨ new context app_name = .ok b) :
    isAbsolute b.home = true ∧ isAbsolute b.config = true ∧ isAbsolute b.data = true ∧
    isAbsolute b.state = true ∧ isAbsolute b.cache = true ∧ isAbsolute b.bin = true ∧
    (∀ r, b.runtime = some r → isAbsolute r = true) ∧
    b.bin = pushPath (pushPath b.home ".local") "bin" := by
  cases h with
  | inl h => exact ok_invariants context b h
  | inr h =>
    unfold new at h
    cases hg : from_context context with
    | error e =>
      rw [hg] at h
      exact absurd h (by simp)
    | ok g =>
      rw [hg] at h
      obtain ⟨gh, gc, gd, gs, gca, gb, gr, gbin⟩ := ok_invariants context g hg
      injection h with hb
      subst hb
      refine ⟨gh, ?_, ?_, ?_, ?_, gb, ?_, gbin⟩
      · exact isAbsolute_pushPath _ _ gc
      · exact isAbsolute_pushPath _ _ gd
      · exact isAbsolute_pushPath _ _ gs
      · exact isAbsolute_pushPath _ _ gca
      · intro r hr
        cases hgr : g.runtime with
        | none => rw [hgr] at hr; simp at hr
        | some r0 =>
          rw [hgr] at hr
          simp at hr
          rw [← hr]
          exact isAbsolute_pushPath _ _ (gr r0 hgr)

/-- Environment with a valid `HOME` and an absolute `XDG_RUNTIME_DIR`. -/
def envC7 : Ctx := ctxOf [("HOME", "/home/user"), ("XDG_RUNTIME_DIR", "/run/user/1000")]

/-- Claim C7, witness: the invariants at a concrete successful global
resolution with a runtime directory present. -/
theorem c7_invariants_witness :
    isAbsolute (resolved envC7).home = true ∧ isAbsolute (resolved envC7).config = true ∧
    isAbsolute (resolved envC7).bin = true ∧ isAbsolute "/run/user/1000" = true ∧
    (resolved envC7).bin = pushPath (pushPath (resolved envC7).home ".local") "bin" := by
  have h := c7_invariants envC7 "my-app" (resolved envC7) (Or.inl rfl)
  exact ⟨h.1, h.2.1, h.2.2.2.2.2.1, h.2.2.2.2.2.2.1 "/run/user/1000" rfl,
    h.2.2.2.2.2.2.2⟩

/-- Claim C8: resolution is deterministic — two invocations over the same
(unchanged) environment source return equal results, both for the global
resolver and for the per-application deriver. -/
theorem c8_deterministic (ctx1 ctx2 : Ctx) (h : ∀ key, ctx1 key = ctx2 key) :
    from_context ctx1 = from_context ctx2 ∧
      ∀ app_name, new ctx1 app_name = new ctx2 app_name := by
  have he : ctx1 = ctx2 := funext h
  subst he
  exact ⟨rfl, fun _ => rfl⟩

/-- Claim C8, witness: determinism at a concrete environment. -/
theorem c8_deterministic_witness :
    from_context envC6 = from_context envC6 ∧ new envC6 "my-app" = new envC6 "my-app" := by
  have h := c8_deterministic envC6 envC6 (fun _ => rfl)
  exact ⟨h.1, h.2 "my-app"⟩

/-- Claim C9: `HomeNotSet` renders as `$HOME is not set or empty`, and
`NotAbsolutePath(name, path)` renders as the name, `=`, the path's textual
form in double quotes, then the literal suffix. -/
theorem c9_error_rendering :
    renderError .HomeNotSet = "$HOME is not set or empty" ∧
      ∀ (n p : String),
        renderError (.NotAbsolutePath n p) = n ++ "=\"" ++ p ++ "\" is not absolute path" :=
  ⟨rfl, fun _ _ => rfl⟩

/-- Claim C10 (implicit): accepted values are stored verbatim — whenever
resolution succeeds and a checked variable was present and non-empty, the
corresponding field is exactly the looked-up string, with no
normalization of separators or `.`/`..` segments. -/
theorem c10_verbatim (context : Ctx) (b : BaseDir) (hok : from_context context = .ok b) :
    (∀ v, context "HOME" = some v → b.home = v) ∧
    (∀ v, context "XDG_CONFIG_HOME" = some v → v ≠ "" → b.config = v) ∧
    (∀ v, context "XDG_DATA_HOME" = some v → v ≠ "" → b.data = v) ∧
    (∀ v, context "XDG_STATE_HOME" = some v → v ≠ "" → b.state = v) ∧
    (∀ v, context "XDG_CACHE_HOME" = some v → v ≠ "" → b.cache = v) ∧
    (∀ v, context "XDG_RUNTIME_DIR" = some v → v ≠ "" → b.runtime = some v) := by
  obtain ⟨hfe, hb⟩ := (from_context_ok_iff context b).mp hok
  subst hb
  refine ⟨?_, ?_, ?_, ?_, ?_, ?_⟩
  · intro v hv
    exact homeVal_of_some context v hv
  · intro v hv hne
    exact fieldValue_of_some context "XDG_CONFIG_HOME" _ v hv hne
  · intro v hv hne
    exact fieldValue_of_some context "XDG_DATA_HOME" _ v hv hne
  · intro v hv hne
    exact fieldValue_of_some context "XDG_STATE_HOME" _ v hv hne
  · intro v hv hne
    exact fieldValue_of_some context "XDG_CACHE_HOME" _ v hv hne
  · intro v hv hne
    exact runtimeVal_of_some context v hv hne

/-- Claim C10, witness: `XDG_DATA_HOME=/a/../b/` is stored with its `..`
segment and trailing separator intact. -/
theorem c10_verbatim_witness :
    from_context envC10 = .ok (resolved envC10) ∧ (resolved envC10).data = "/a/../b/" :=
  ⟨rfl, (c10_verbatim envC10 (resolved envC10) rfl).2.2.1 "/a/../b/" rfl (by decide)⟩

end Xdgdir
